import Mathlib

/-!
Verification development for the Colombo AQI prediction backend
(src/backend/main.py). The Python code is shallowly embedded: the
reference dataset is a table of cells, the label encoders are fixed
string vocabularies, the trained pipeline is an opaque function, and
the request handler is a pure function returning Except. Python floats
are modelled by rationals.
-/

namespace AQI

/-- A dataset cell: a string, a number, or a missing value (NaN). -/
inductive Value where
  | str (s : String)
  | num (q : ℚ)
  | nan
deriving DecidableEq, Repr

/-- Embeds aqi_category from src/backend/main.py (lines 106-112):
the if-chain of inclusive upper bounds. -/
def aqi_category (aqi : ℚ) : String :=
  if aqi ≤ 50 then "Good"
  else if aqi ≤ 100 then "Moderate"
  else if aqi ≤ 150 then "Unhealthy for Sensitive Groups"
  else if aqi ≤ 200 then "Unhealthy"
  else if aqi ≤ 300 then "Very Unhealthy"
  else "Hazardous"

/-- Embeds advice_for from src/backend/main.py (lines 114-123). -/
def advice_for (aqi : ℚ) : List String :=
  if aqi ≤ 100 then
    ["Outdoor activities are generally safe."]
  else if aqi ≤ 150 then
    ["Sensitive groups should reduce long outdoor exposure."]
  else if aqi ≤ 200 then
    ["Wear a mask outdoors.", "Reduce outdoor activities."]
  else if aqi ≤ 300 then
    ["Avoid outdoor activities.", "Wear N95 if you must go out."]
  else
    ["Hazardous: Stay indoors.", "Avoid outdoor activities completely."]

/-- Round-half-to-even (the rounding Python's builtin round uses),
on rationals. -/
def roundHalfEven (q : ℚ) : ℤ :=
  if q - ⌊q⌋ < 1/2 then ⌊q⌋
  else if 1/2 < q - ⌊q⌋ then ⌊q⌋ + 1
  else if ⌊q⌋ % 2 = 0 then ⌊q⌋ else ⌊q⌋ + 1

/-- Embeds round(pred, 2) from src/backend/main.py line 202. -/
def round2 (q : ℚ) : ℚ :=
  (roundHalfEven (q * 100) : ℚ) / 100

/-- A total comparison on cells, modelling the order Python's sorted()
uses on the (string-valued) location column; extended arbitrarily but
totally across the three cell kinds. -/
def Value.ble : Value → Value → Bool
  | .nan, _ => true
  | .num _, .nan => false
  | .num a, .num b => decide (a ≤ b)
  | .num _, .str _ => true
  | .str _, .nan => false
  | .str _, .num _ => false
  | .str a, .str b => decide (a ≤ b)

/-- The comparison as a relation, for the sorting lemmas. -/
def vle (a b : Value) : Prop := Value.ble a b = true

instance : DecidableRel vle := fun a b => by
  unfold vle; infer_instance

/-- The reference dataset: the pandas DataFrame loaded at startup
(src/backend/main.py line 24): named columns and rows of cells. -/
structure DataFrame where
  cols : List String
  rows : List (List Value)

/-- Reading one cell of a row by column name (a pandas column access). -/
def getCell (cols : List String) (row : List Value) (c : String) : Option Value :=
  match cols.findIdx? (fun c0 => c0 = c) with
  | some i => row[i]?
  | none => none

/-- The cells of column c, one per row (models df[c]). -/
def colValues (df : DataFrame) (c : String) : List (Option Value) :=
  df.rows.map (fun r => getCell df.cols r c)

/-- Models pandas dropna: missing cells and NaN cells are removed. -/
def dropna (l : List (Option Value)) : List Value :=
  l.filterMap (fun oc =>
    match oc with
    | some v => if v = Value.nan then none else some v
    | none => none)

/-- Models pandas unique(): deduplication keeping first occurrences,
with an accumulator of values already seen. -/
def uniqueAux (seen : List Value) : List Value → List Value
  | [] => []
  | v :: rest => if v ∈ seen then uniqueAux seen rest else v :: uniqueAux (v :: seen) rest

def uniqueFirst (l : List Value) : List Value := uniqueAux [] l

/-- Embeds get_locations (src/backend/main.py lines 140-144):
sorted(df[Location].dropna().unique().tolist()). -/
def get_locations (df : DataFrame) : List Value :=
  List.insertionSort vle (uniqueFirst (dropna (colValues df "Location")))

/-- Models the membership test req.location in df[Location].values
(src/backend/main.py line 162). -/
def hasLocation (df : DataFrame) (loc : String) : Bool :=
  df.rows.any (fun r => getCell df.cols r "Location" = some (.str loc))

/-- One step of the mode scan: keep the more frequent of the running
best and the next value, the smaller one on a tie. -/
def modeStep (l : List Value) (best : Option Value) (v : Value) : Option Value :=
  match best with
  | none => some v
  | some b =>
    if l.count v > l.count b ∨ (l.count v = l.count b ∧ Value.ble v b) then some v
    else some b

/-- Models pandas Series.mode().iloc[0]: the most frequent value (of
an already NaN-dropped column), ties broken by taking the least; none
when the column is empty (where iloc[0] would raise). -/
def modeOf (l : List Value) : Option Value :=
  l.foldl (modeStep l) none

/-- A parsed calendar date (the result of datetime.strptime). -/
structure Date where
  year : ℤ
  month : ℤ
  day : ℤ
deriving DecidableEq, Repr

def isLeap (y : ℤ) : Bool := (y % 4 = 0 && y % 100 ≠ 0) || y % 400 = 0

def daysInMonth (y m : ℤ) : ℤ :=
  if m = 2 then (if isLeap y then 29 else 28)
  else if m = 4 ∨ m = 6 ∨ m = 9 ∨ m = 11 then 30
  else 31

/-- Splits a character list at dashes (the "%Y-%m-%d" separators). -/
def splitDash : List Char → List Char → List (List Char)
  | acc, [] => [acc.reverse]
  | acc, c :: rest =>
    if c = '-' then acc.reverse :: splitDash [] rest
    else splitDash (c :: acc) rest

def isDigits (cs : List Char) : Bool := cs.length > 0 && cs.all Char.isDigit

def digitsToNat (cs : List Char) : ℕ :=
  cs.foldl (fun n c => 10 * n + (c.toNat - 48)) 0

/-- Models datetime.strptime(s, "%Y-%m-%d") (src/backend/main.py
line 169): three dash-separated digit groups forming a valid calendar
date; none where strptime raises ValueError. -/
def parseDate (s : String) : Option Date :=
  match splitDash [] s.toList with
  | [ys, ms, ds] =>
    if isDigits ys && isDigits ms && isDigits ds then
      let y : ℤ := (digitsToNat ys : ℕ)
      let m : ℤ := (digitsToNat ms : ℕ)
      let d : ℤ := (digitsToNat ds : ℕ)
      if 1 ≤ m ∧ m ≤ 12 ∧ 1 ≤ d ∧ d ≤ daysInMonth y m then some ⟨y, m, d⟩ else none
    else none
  | _ => none

/-- Models dt.strftime("%A") (src/backend/main.py line 175), the full
English weekday name, by Sakamoto's day-of-week computation. -/
def dayOfWeekName (dt : Date) : String :=
  let t : List ℤ := [0, 3, 2, 5, 0, 3, 5, 1, 4, 6, 2, 4]
  let y := if dt.month < 3 then dt.year - 1 else dt.year
  let w := (y + y / 4 - y / 100 + y / 400 + t.getD (dt.month - 1).toNat 0 + dt.day) % 7
  (["Sunday", "Monday", "Tuesday", "Wednesday", "Thursday", "Friday", "Saturday"]).getD w.toNat ""

/-- A Python dict of column name to cell value (row.to_dict()). -/
abbrev Row := List (String × Value)

/-- A row after reindexing: cells are Option, none standing for the
NaN pandas reindex inserts for a column absent from the dict. -/
abbrev XRow := List (String × Option Value)

/-- iloc[0].to_dict(): the row paired with the column names. -/
def rowToDict (cols : List String) (row : List Value) : Row :=
  cols.zip row

/-- Dict assignment base_row[k] = v: replace the value of an existing
key, otherwise append the new key. -/
def setKey (row : Row) (k : String) (v : Value) : Row :=
  if row.any (fun p => p.1 = k) then
    row.map (fun p => if p.1 = k then (k, v) else p)
  else row ++ [(k, v)]

/-- Dict removal base_row.pop(k, None). -/
def popKey (row : Row) (k : String) : Row :=
  row.filter (fun p => p.1 ≠ k)

/-- Dict lookup. -/
def lookupKey (row : Row) (k : String) : Option Value :=
  (row.find? (fun p => p.1 = k)).map (fun p => p.2)

/-- Models pd.DataFrame([base_row]).reindex(columns=cols)
(src/backend/main.py line 182): one cell per requested column, in the
requested order; a column absent from the dict becomes a NaN cell
(none), never an error. -/
def reindex (row : Row) (cols : List String) : XRow :=
  cols.map (fun c => (c, lookupKey row c))

/-- A fitted sklearn LabelEncoder: its fixed vocabulary classes_. -/
structure LabelEncoder where
  classes : List String

/-- le.transform([val]): the integer code of val in the vocabulary;
none where sklearn raises ValueError on an unseen label. -/
def LabelEncoder.transform (le : LabelEncoder) (val : String) : Option ℚ :=
  (le.classes.findIdx? (fun c => c = val)).map (fun i => (i : ℚ))

/-- Python str() applied to a cell read back from the reindexed frame
(src/backend/main.py line 187); str of a NaN cell is "nan". -/
def pyStr : Option Value → String
  | none => "nan"
  | some (.str s) => s
  | some (.num q) => toString q
  | some .nan => "nan"

/-- How a request handler fails: an HTTPException 400, or a 500
(an explicit 500 or an unhandled exception). -/
inductive Error where
  | badRequest (msg : String)
  | serverError (msg : String)
deriving DecidableEq, Repr

/-- Embeds the body of the encoder loop for one column
(src/backend/main.py lines 187-195): str the cell, substitute the
column's dataset-wide mode when the value is unseen, then transform. -/
def encodeCell (df : DataFrame) (col : String) (le : LabelEncoder)
    (cell : Option Value) : Except Error Value :=
  let val := pyStr cell
  let val2 :=
    if le.classes.contains val then Except.ok val
    else
      match modeOf (dropna (colValues df col)) with
      | some fb => Except.ok (pyStr (some fb))
      | none => Except.error (Error.serverError "IndexError: mode of empty column")
  match val2 with
  | .error e => .error e
  | .ok v =>
    match le.transform v with
    | some code => .ok (.num code)
    | none => .error (Error.serverError "ValueError: unseen label")

/-- X.at[0, c] on the reindexed single-row frame. -/
def lookupX (X : XRow) (c : String) : Option Value :=
  match X.find? (fun p => p.1 = c) with
  | some p => p.2
  | none => none

/-- X[c] = encoded value. -/
def setX (X : XRow) (c : String) (v : Value) : XRow :=
  X.map (fun p => if p.1 = c then (c, some v) else p)

/-- Embeds the encoder loop (src/backend/main.py lines 185-195):
for each (col, le) in encoders, when col is among X's columns, encode
that cell in place. -/
def applyEncoders (df : DataFrame) :
    List (String × LabelEncoder) → XRow → Except Error XRow
  | [], X => .ok X
  | cl :: rest, X =>
    if X.any (fun p => p.1 = cl.1) then
      match encodeCell df cl.1 cl.2 (lookupX X cl.1) with
      | .ok v => applyEncoders df rest (setX X cl.1 v)
      | .error e => .error e
    else applyEncoders df rest X

/-- The request body (src/backend/main.py lines 128-131). -/
structure PredictRequest where
  location : String
  date : String
  hour : ℤ
deriving DecidableEq, Repr

/-- The successful /predict response (src/backend/main.py lines 200-205). -/
structure PredictResponse where
  selected_location : String
  predicted_aqi : ℚ
  category : String
  advice : List String
deriving DecidableEq, Repr

/-- The feature schema: every dataset column except the target
(src/backend/main.py line 181). -/
def featureCols (df : DataFrame) : List String :=
  df.cols.filter (fun c => c ≠ "AQI_US")

/-- Embeds the baseline overlay (src/backend/main.py lines 166-178):
the first matching row as a dict, date and query fields written over
it, the target column removed. -/
def overlayBase (df : DataFrame) (req : PredictRequest) (dt : Date)
    (r : List Value) : Row :=
  popKey
    (setKey
      (setKey
        (setKey
          (setKey
            (setKey
              (setKey (rowToDict df.cols r) "Year" (.num dt.year))
              "Month" (.num dt.month))
            "Day" (.num dt.day))
          "Hour" (.num req.hour))
        "Location" (.str req.location))
      "Day_of_Week" (.str (dayOfWeekName dt)))
    "AQI_US"

/-- The reindexed single-row frame X (src/backend/main.py line 182). -/
def buildX (df : DataFrame) (req : PredictRequest) (dt : Date)
    (r : List Value) : XRow :=
  reindex (overlayBase df req dt r) (featureCols df)

/-- Baseline overlay, reindex, and encoding: the whole feature-row
construction (src/backend/main.py lines 166-195). -/
def buildFeatureRow (df : DataFrame) (encoders : List (String × LabelEncoder))
    (req : PredictRequest) (dt : Date) (r : List Value) : Except Error XRow :=
  applyEncoders df encoders (buildX df req dt r)

/-- Embeds the /predict handler (src/backend/main.py lines 151-205),
with the startup artifacts already loaded: validation, baseline
lookup, date parsing, feature-row construction, model call, response
assembly. The trained pipeline is the opaque function pipe. -/
def predict (df : DataFrame) (pipe : List (Option Value) → ℚ)
    (encoders : List (String × LabelEncoder)) (req : PredictRequest) :
    Except Error PredictResponse :=
  if ¬ (0 ≤ req.hour ∧ req.hour ≤ 23) then
    .error (Error.badRequest "Hour must be 0–23.")
  else if ¬ hasLocation df req.location then
    .error (Error.badRequest "Unknown location.")
  else
    match df.rows.find? (fun r => getCell df.cols r "Location" = some (.str req.location)) with
    | none => .error (Error.serverError "IndexError: no matching row")
    | some r =>
      match parseDate req.date with
      | none => .error (Error.serverError "ValueError: invalid date")
      | some dt =>
        match buildFeatureRow df encoders req dt r with
        | .error e => .error e
        | .ok X =>
          let pred := pipe (X.map (fun p => p.2))
          .ok { selected_location := req.location
              , predicted_aqi := round2 pred
              , category := aqi_category pred
              , advice := advice_for pred }

/-- A 400 response: an HTTPException with status_code 400. -/
def is400 (e : Except Error PredictResponse) : Bool :=
  match e with
  | .error (.badRequest _) => true
  | _ => false

/-- C1: for every real input aqi, the category classifier is a total
function returning exactly one of the six category labels, with
inclusive upper bounds in order: aqi ≤ 50 yields Good, 50 < aqi ≤ 100
Moderate, 100 < aqi ≤ 150 Unhealthy for Sensitive Groups,
150 < aqi ≤ 200 Unhealthy, 200 < aqi ≤ 300 Very Unhealthy, and
aqi > 300 Hazardous. -/
theorem aqi_category_bounds (aqi : ℚ) :
    (aqi ≤ 50 → aqi_category aqi = "Good") ∧
    (50 < aqi → aqi ≤ 100 → aqi_category aqi = "Moderate") ∧
    (100 < aqi → aqi ≤ 150 → aqi_category aqi = "Unhealthy for Sensitive Groups") ∧
    (150 < aqi → aqi ≤ 200 → aqi_category aqi = "Unhealthy") ∧
    (200 < aqi → aqi ≤ 300 → aqi_category aqi = "Very Unhealthy") ∧
    (300 < aqi → aqi_category aqi = "Hazardous") ∧
    aqi_category aqi ∈ ["Good", "Moderate", "Unhealthy for Sensitive Groups",
      "Unhealthy", "Very Unhealthy", "Hazardous"] := by
  unfold aqi_category
  refine ⟨?_, ?_, ?_, ?_, ?_, ?_, ?_⟩ <;> intros <;> split_ifs <;>
    first
      | rfl
      | (exfalso; linarith)
      | simp

/-- C1 witness: the boundary behaviour at the spec's test points. -/
theorem aqi_category_bounds_witness :
    aqi_category 50 = "Good" ∧ aqi_category (5001/100) = "Moderate" ∧
    aqi_category 150 = "Unhealthy for Sensitive Groups" ∧
    aqi_category (30001/100) = "Hazardous" :=
  ⟨(aqi_category_bounds 50).1 (by norm_num),
   (aqi_category_bounds (5001/100)).2.1 (by norm_num) (by norm_num),
   (aqi_category_bounds 150).2.2.1 (by norm_num) (by norm_num),
   (aqi_category_bounds (30001/100)).2.2.2.2.2.1 (by norm_num)⟩

/-- C2: for every aqi with 0 ≤ aqi ≤ 100 (both the Good and Moderate
categories), the advice function returns the single Moderate-range
message; the advice boundary sits at 100 while the category boundary
sits at 50. -/
theorem advice_for_below_100 (aqi : ℚ) (h0 : 0 ≤ aqi) (h1 : aqi ≤ 100) :
    advice_for aqi = ["Outdoor activities are generally safe."] := by
  unfold advice_for
  rw [if_pos h1]

/-- C2 witness: at 30 (category Good) and at 75 (category Moderate)
the advice is the same single message. -/
theorem advice_for_below_100_witness :
    advice_for 30 = ["Outdoor activities are generally safe."] ∧
    advice_for 75 = ["Outdoor activities are generally safe."] ∧
    aqi_category 30 = "Good" ∧ aqi_category 75 = "Moderate" :=
  ⟨advice_for_below_100 30 (by norm_num) (by norm_num),
   advice_for_below_100 75 (by norm_num) (by norm_num),
   by decide, by decide⟩

/-- C6: for every prediction request whose hour is outside [0, 23],
and regardless of the location and date supplied (and of the dataset,
pipeline and encoders, so neither the baseline lookup nor the model is
touched), the handler returns the 400 hour validation error. -/
theorem predict_hour_out_of_range (df : DataFrame) (pipe : List (Option Value) → ℚ)
    (encoders : List (String × LabelEncoder)) (req : PredictRequest)
    (h : req.hour < 0 ∨ 23 < req.hour) :
    predict df pipe encoders req = .error (Error.badRequest "Hour must be 0–23.") := by
  have hc : ¬ (0 ≤ req.hour ∧ req.hour ≤ 23) := by omega
  simp [predict, hc]

/-- C6 witness: hour 24 with an arbitrary location and date against
an empty dataset yields the 400 hour error. -/
theorem predict_hour_out_of_range_witness :
    ((24 : ℤ) < 0 ∨ (23 : ℤ) < 24) ∧
    predict ⟨[], []⟩ (fun _ => 0) [] ⟨"Colombo City", "2024-03-15", 24⟩ =
      .error (Error.badRequest "Hour must be 0–23.") :=
  ⟨Or.inr (by norm_num),
    predict_hour_out_of_range ⟨[], []⟩ (fun _ => 0) [] ⟨"Colombo City", "2024-03-15", 24⟩
      (Or.inr (by norm_num))⟩

/-- C7: for every prediction request whose location does not appear in
the dataset's Location column, the handler returns a 400 validation
error for any pipeline (so the model is never invoked); when the hour
is in range the error is exactly "Unknown location.". -/
theorem predict_unknown_location (df : DataFrame) (pipe : List (Option Value) → ℚ)
    (encoders : List (String × LabelEncoder)) (req : PredictRequest)
    (h : hasLocation df req.location = false) :
    is400 (predict df pipe encoders req) = true ∧
    (0 ≤ req.hour → req.hour ≤ 23 →
      predict df pipe encoders req = .error (Error.badRequest "Unknown location.")) := by
  constructor
  · by_cases hh : 0 ≤ req.hour ∧ req.hour ≤ 23
    · simp [predict, hh, h, is400]
    · simp [predict, hh, is400]
  · intro h0 h1
    have hh : 0 ≤ req.hour ∧ req.hour ≤ 23 := ⟨h0, h1⟩
    simp [predict, hh, h]

/-- C7 witness: an unknown location with a valid hour yields the 400
unknown-location error on a one-row dataset. -/
theorem predict_unknown_location_witness :
    hasLocation ⟨["Location"], [[Value.str "Colombo City"]]⟩ "Atlantis" = false ∧
    predict ⟨["Location"], [[Value.str "Colombo City"]]⟩ (fun _ => 0) []
        ⟨"Atlantis", "2024-03-15", 14⟩ =
      .error (Error.badRequest "Unknown location.") := by
  refine ⟨by decide, ?_⟩
  exact (predict_unknown_location ⟨["Location"], [[Value.str "Colombo City"]]⟩
    (fun _ => 0) [] ⟨"Atlantis", "2024-03-15", 14⟩ (by decide)).2
    (by norm_num) (by norm_num)

/-- C8: for a fixed dataset, pipeline and encoder snapshot, any two
calls of the handler with identical location, date and hour yield the
same result, and in particular the same predicted_aqi. -/
theorem predict_two_run_equal (df : DataFrame) (pipe : List (Option Value) → ℚ)
    (encoders : List (String × LabelEncoder)) (req1 req2 : PredictRequest)
    (hl : req1.location = req2.location) (hd : req1.date = req2.date)
    (hh : req1.hour = req2.hour) :
    predict df pipe encoders req1 = predict df pipe encoders req2 ∧
    ∀ r1 r2, predict df pipe encoders req1 = .ok r1 →
      predict df pipe encoders req2 = .ok r2 →
      r1.predicted_aqi = r2.predicted_aqi := by
  have heq : req1 = req2 := by cases req1; cases req2; simp_all
  subst heq
  refine ⟨rfl, fun r1 r2 e1 e2 => ?_⟩
  rw [e1] at e2
  cases e2
  rfl

/-- C8 witness: two syntactically separate but identical requests give
identical results on a concrete snapshot. -/
theorem predict_two_run_equal_witness :
    predict ⟨["Location"], [[Value.str "Colombo City"]]⟩ (fun _ => 42) []
        ⟨"Colombo City", "2024-03-15", 14⟩ =
      predict ⟨["Location"], [[Value.str "Colombo City"]]⟩ (fun _ => 42) []
        ⟨"Colombo City", "2024-03-15", 14⟩ :=
  (predict_two_run_equal ⟨["Location"], [[Value.str "Colombo City"]]⟩ (fun _ => 42) []
    ⟨"Colombo City", "2024-03-15", 14⟩ ⟨"Colombo City", "2024-03-15", 14⟩
    rfl rfl rfl).1

instance : IsTotal Value vle := ⟨by
  intro a b
  cases a <;> cases b <;> simp [vle, Value.ble] <;> exact le_total _ _⟩

instance : IsTrans Value vle := ⟨by
  intro a b c hab hbc
  cases a <;> cases b <;> cases c <;> simp_all [vle, Value.ble] <;>
    exact le_trans hab hbc⟩

theorem mem_uniqueAux (l : List Value) : ∀ (seen : List Value) (v : Value),
    v ∈ uniqueAux seen l ↔ (v ∈ l ∧ v ∉ seen) := by
  induction l with
  | nil => intro seen v; simp [uniqueAux]
  | cons w rest ih =>
    intro seen v
    by_cases hw : w ∈ seen
    · simp only [uniqueAux, if_pos hw, ih, List.mem_cons]
      aesop
    · simp only [uniqueAux, if_neg hw, List.mem_cons, ih]
      constructor
      · rintro (rfl | ⟨h1, h2⟩)
        · exact ⟨Or.inl rfl, hw⟩
        · exact ⟨Or.inr h1, fun hs => h2 (Or.inr hs)⟩
      · rintro ⟨h1, h2⟩
        by_cases hvw : v = w
        · exact Or.inl hvw
        · rcases h1 with rfl | h1
          · exact Or.inl rfl
          · exact Or.inr ⟨h1, fun hs => hs.elim hvw h2⟩

theorem nodup_uniqueAux (l : List Value) : ∀ seen, (uniqueAux seen l).Nodup := by
  induction l with
  | nil => intro seen; simp [uniqueAux]
  | cons w rest ih =>
    intro seen
    by_cases hw : w ∈ seen
    · simpa [uniqueAux, hw] using ih seen
    · rw [uniqueAux, if_neg hw]
      refine List.nodup_cons.2 ⟨?_, ih _⟩
      intro hmem
      rcases (mem_uniqueAux rest (w :: seen) w).1 hmem with ⟨-, h2⟩
      exact h2 (List.mem_cons_self _ _)

/-- C9: for every dataset contents, the /locations endpoint returns
the dataset's (non-missing) location column values sorted ascending
and with no duplicate entries. -/
theorem get_locations_sorted_nodup (df : DataFrame) :
    List.Sorted vle (get_locations df) ∧
    (get_locations df).Nodup ∧
    ∀ v, v ∈ get_locations df ↔ v ∈ dropna (colValues df "Location") := by
  refine ⟨List.sorted_insertionSort vle _, ?_, ?_⟩
  · exact ((List.perm_insertionSort vle _).nodup_iff).2 (nodup_uniqueAux _ [])
  · intro v
    rw [get_locations, (List.perm_insertionSort vle _).mem_iff, uniqueFirst,
      mem_uniqueAux]
    simp

/-- C9 witness: on a dataset with a duplicate location and a missing
cell, the returned list is duplicate-free and carries the column's
values. -/
theorem get_locations_sorted_nodup_witness :
    (get_locations ⟨["Location"],
        [[Value.str "B"], [Value.str "A"], [Value.str "B"], [Value.nan]]⟩).Nodup ∧
    (Value.str "A" ∈ get_locations ⟨["Location"],
        [[Value.str "B"], [Value.str "A"], [Value.str "B"], [Value.nan]]⟩ ↔
      Value.str "A" ∈ dropna (colValues ⟨["Location"],
        [[Value.str "B"], [Value.str "A"], [Value.str "B"], [Value.nan]]⟩ "Location")) :=
  ⟨(get_locations_sorted_nodup ⟨["Location"],
      [[Value.str "B"], [Value.str "A"], [Value.str "B"], [Value.nan]]⟩).2.1,
   (get_locations_sorted_nodup ⟨["Location"],
      [[Value.str "B"], [Value.str "A"], [Value.str "B"], [Value.nan]]⟩).2.2 _⟩

theorem reindex_keys (row : Row) (cols : List String) :
    (reindex row cols).map (fun p => p.1) = cols := by
  rw [reindex, List.map_map]
  induction cols with
  | nil => rfl
  | cons c cs ih => simpa using ih

theorem setX_keys (X : XRow) (c : String) (v : Value) :
    (setX X c v).map (fun p => p.1) = X.map (fun p => p.1) := by
  rw [setX, List.map_map]
  refine List.map_congr_left ?_
  intro p _
  by_cases h : p.1 = c
  · simp [h]
  · simp [h]

theorem applyEncoders_keys (df : DataFrame) :
    ∀ (encoders : List (String × LabelEncoder)) (X X' : XRow),
      applyEncoders df encoders X = .ok X' →
      X'.map (fun p => p.1) = X.map (fun p => p.1) := by
  intro encoders
  induction encoders with
  | nil =>
    intro X X' h
    cases h
    rfl
  | cons cl rest ih =>
    intro X X' h
    rw [applyEncoders] at h
    by_cases hc : X.any (fun p => p.1 = cl.1)
    · rw [if_pos hc] at h
      cases he : encodeCell df cl.1 cl.2 (lookupX X cl.1) with
      | ok v =>
        rw [he] at h
        rw [ih _ _ h, setX_keys]
      | error e =>
        rw [he] at h
        cases h
    · rw [if_neg hc] at h
      exact ih _ _ h

/-- C4: for every valid prediction query, the feature row handed to
the trained pipeline carries exactly the Feature Schema columns
(every dataset column except the target AQI_US), in the dataset's
column order, with the target column absent. -/
theorem featureRow_matches_schema (df : DataFrame)
    (encoders : List (String × LabelEncoder)) (req : PredictRequest)
    (dt : Date) (r : List Value) (X : XRow)
    (h : buildFeatureRow df encoders req dt r = .ok X) :
    X.map (fun p => p.1) = df.cols.filter (fun c => c ≠ "AQI_US") ∧
    "AQI_US" ∉ X.map (fun p => p.1) := by
  have hk : X.map (fun p => p.1) = (buildX df req dt r).map (fun p => p.1) :=
    applyEncoders_keys df encoders _ X h
  have hb : (buildX df req dt r).map (fun p => p.1) = featureCols df :=
    reindex_keys _ _
  refine ⟨by rw [hk, hb]; rfl, ?_⟩
  rw [hk, hb]
  intro hmem
  simp [featureCols, List.mem_filter] at hmem

/-- A one-row sample snapshot used by the concrete witnesses. -/
def sampleDf : DataFrame :=
  ⟨["Location", "PM25", "AQI_US"], [[.str "Colombo City", .num 10, .num 55]]⟩

def sampleReq : PredictRequest := ⟨"Colombo City", "2024-03-15", 14⟩

def sampleDate : Date := ⟨2024, 3, 15⟩

def sampleRow : List Value := [.str "Colombo City", .num 10, .num 55]

/-- C4 witness: on the sample snapshot the built row's columns are
exactly the dataset columns minus the target. -/
theorem featureRow_matches_schema_witness :
    buildFeatureRow sampleDf [] sampleReq sampleDate sampleRow =
      .ok (buildX sampleDf sampleReq sampleDate sampleRow) ∧
    ((buildX sampleDf sampleReq sampleDate sampleRow).map (fun p => p.1) =
        sampleDf.cols.filter (fun c => c ≠ "AQI_US") ∧
      "AQI_US" ∉ (buildX sampleDf sampleReq sampleDate sampleRow).map (fun p => p.1)) :=
  ⟨rfl, featureRow_matches_schema sampleDf [] sampleReq sampleDate sampleRow _ rfl⟩

theorem foldl_modeStep_some (l : List Value) :
    ∀ (rest : List Value) (b r : Value),
      List.foldl (modeStep l) (some b) rest = some r →
      (r = b ∨ r ∈ rest) ∧ l.count b ≤ l.count r ∧
      ∀ w ∈ rest, l.count w ≤ l.count r := by
  intro rest
  induction rest with
  | nil =>
    intro b r h
    rw [List.foldl_nil] at h
    cases h
    exact ⟨Or.inl rfl, le_refl _, by intro w hw; cases hw⟩
  | cons w rest ih =>
    intro b r h
    rw [List.foldl_cons] at h
    by_cases hc : l.count w > l.count b ∨ (l.count w = l.count b ∧ Value.ble w b)
    · rw [show modeStep l (some b) w =
          (if l.count w > l.count b ∨ (l.count w = l.count b ∧ Value.ble w b)
            then some w else some b) from rfl, if_pos hc] at h
      obtain ⟨h1, h2, h3⟩ := ih w r h
      have hwb : l.count b ≤ l.count w := by
        rcases hc with hgt | ⟨heq, -⟩
        · exact le_of_lt hgt
        · exact le_of_eq heq.symm
      refine ⟨?_, le_trans hwb h2, ?_⟩
      · rcases h1 with rfl | h1
        · exact Or.inr (List.mem_cons_self _ _)
        · exact Or.inr (List.mem_cons_of_mem _ h1)
      · intro u hu
        rcases List.mem_cons.1 hu with rfl | hu
        · exact h2
        · exact h3 u hu
    · rw [show modeStep l (some b) w =
          (if l.count w > l.count b ∨ (l.count w = l.count b ∧ Value.ble w b)
            then some w else some b) from rfl, if_neg hc] at h
      obtain ⟨h1, h2, h3⟩ := ih b r h
      have hwb : l.count w ≤ l.count b := by
        rcases Nat.lt_or_ge (l.count b) (l.count w) with hlt | hge
        · exact absurd (Or.inl hlt) hc
        · exact hge
      refine ⟨?_, h2, ?_⟩
      · rcases h1 with rfl | h1
        · exact Or.inl rfl
        · exact Or.inr (List.mem_cons_of_mem _ h1)
      · intro u hu
        rcases List.mem_cons.1 hu with rfl | hu
        · exact le_trans hwb h2
        · exact h3 u hu

theorem modeOf_spec (l : List Value) (v : Value) (h : modeOf l = some v) :
    v ∈ l ∧ ∀ w ∈ l, l.count w ≤ l.count v := by
  cases l with
  | nil => simp [modeOf] at h
  | cons w rest =>
    rw [modeOf, List.foldl_cons] at h
    rw [show modeStep (w :: rest) none w = some w from rfl] at h
    obtain ⟨h1, h2, h3⟩ := foldl_modeStep_some (w :: rest) rest w v h
    constructor
    · rcases h1 with rfl | h1
      · exact List.mem_cons_self _ _
      · exact List.mem_cons_of_mem _ h1
    · intro u hu
      rcases List.mem_cons.1 hu with rfl | hu
      · exact h2
      · exact h3 u hu

/-- C3: when the value read from the row is not in the column's fixed
vocabulary, the encoder substitutes the dataset-wide mode (a most
frequent value) of that column and encodes the substitute; the
substitution is deterministic: it does not depend on which unseen
value was read, only on the dataset snapshot and the column. -/
theorem encodeCell_unseen_fallback (df : DataFrame) (col : String)
    (le : LabelEncoder) (cell cell2 : Option Value)
    (h1 : le.classes.contains (pyStr cell) = false)
    (h2 : le.classes.contains (pyStr cell2) = false) :
    encodeCell df col le cell = encodeCell df col le cell2 ∧
    (∀ fb, modeOf (dropna (colValues df col)) = some fb →
      ∀ q, le.transform (pyStr (some fb)) = some q →
        encodeCell df col le cell = .ok (.num q)) ∧
    ∀ fb, modeOf (dropna (colValues df col)) = some fb →
      fb ∈ dropna (colValues df col) ∧
      ∀ w ∈ dropna (colValues df col),
        (dropna (colValues df col)).count w ≤
          (dropna (colValues df col)).count fb := by
  have h1m : pyStr cell ∉ le.classes := by simpa using h1
  have h2m : pyStr cell2 ∉ le.classes := by simpa using h2
  refine ⟨?_, ?_, ?_⟩
  · simp [encodeCell, h1m, h2m]
  · intro fb hfb q hq
    simp [encodeCell, h1m, hfb, hq]
  · intro fb hfb
    exact modeOf_spec _ fb hfb

def sampleLe : LabelEncoder := ⟨["Colombo City", "Moratuwa"]⟩

/-- C3 witness: two different unseen location strings are both
replaced by the sample dataset's mode "Colombo City" and encoded to
its code 0. -/
theorem encodeCell_unseen_fallback_witness :
    sampleLe.classes.contains (pyStr (some (Value.str "Atlantis"))) = false ∧
    sampleLe.classes.contains (pyStr (some (Value.str "Zeta"))) = false ∧
    encodeCell sampleDf "Location" sampleLe (some (Value.str "Atlantis")) =
      encodeCell sampleDf "Location" sampleLe (some (Value.str "Zeta")) ∧
    encodeCell sampleDf "Location" sampleLe (some (Value.str "Atlantis")) =
      .ok (Value.num 0) ∧
    Value.str "Colombo City" ∈ dropna (colValues sampleDf "Location") :=
  ⟨rfl, rfl,
   (encodeCell_unseen_fallback sampleDf "Location" sampleLe
      (some (Value.str "Atlantis")) (some (Value.str "Zeta")) rfl rfl).1,
   (encodeCell_unseen_fallback sampleDf "Location" sampleLe
      (some (Value.str "Atlantis")) (some (Value.str "Zeta")) rfl rfl).2.1
     (Value.str "Colombo City") rfl 0 rfl,
   ((encodeCell_unseen_fallback sampleDf "Location" sampleLe
      (some (Value.str "Atlantis")) (some (Value.str "Zeta")) rfl rfl).2.2
     (Value.str "Colombo City") rfl).1⟩

/-- A dataset whose single row is shorter than its column list, so
the overlaid baseline dict lacks the schema column "Extra". -/
def raggedDf : DataFrame := ⟨["Location", "Extra"], [[.str "L"]]⟩

def raggedReq : PredictRequest := ⟨"L", "2024-03-15", 0⟩

def raggedRow : List Value := [.str "L"]

/-- C5 counterexample: a schema column ("Extra") is absent from the
overlaid baseline, yet the feature-row construction succeeds with a
row (its missing cell a NaN) instead of failing with any error. -/
theorem schema_absent_no_error :
    "Extra" ∈ featureCols raggedDf ∧
    lookupKey (overlayBase raggedDf raggedReq sampleDate raggedRow) "Extra" = none ∧
    buildFeatureRow raggedDf [] raggedReq sampleDate raggedRow =
      .ok [("Location", some (Value.str "L")), ("Extra", none)] := by
  refine ⟨?_, rfl, rfl⟩
  simp [featureCols, raggedDf]

/-- C5 amended: when a schema column is absent from the overlaid
baseline, the builder does not fail: reindex still produces a row
over exactly the schema columns, carrying that column as a missing
(NaN) cell. -/
theorem reindex_missing_column (row : Row) (cols : List String) (c : String)
    (hc : c ∈ cols) (habs : lookupKey row c = none) :
    (c, (none : Option Value)) ∈ reindex row cols ∧
    (reindex row cols).map (fun p => p.1) = cols := by
  constructor
  · rw [reindex]
    exact List.mem_map.2 ⟨c, hc, by rw [habs]⟩
  · exact reindex_keys row cols

/-- C5 amended witness: reindexing a dict lacking column "B" to
columns [A, B] yields a row with a NaN cell for "B". -/
theorem reindex_missing_column_witness :
    ("B", (none : Option Value)) ∈ reindex [("A", Value.num 1)] ["A", "B"] ∧
    (reindex [("A", Value.num 1)] ["A", "B"]).map (fun p => p.1) = ["A", "B"] :=
  reindex_missing_column [("A", Value.num 1)] ["A", "B"] "B"
    (by simp) rfl

/-- C10: every successful prediction response is assembled from one
model output q: category and advice are computed from the unrounded
q while predicted_aqi is q rounded to 2 decimals; consequently, at
model output 50.004 the returned category (from the unrounded value)
differs from classifying the returned predicted_aqi. -/
theorem predict_category_unrounded (df : DataFrame)
    (pipe : List (Option Value) → ℚ) (encoders : List (String × LabelEncoder))
    (req : PredictRequest) (resp : PredictResponse)
    (h : predict df pipe encoders req = .ok resp) :
    (∃ q, resp.predicted_aqi = round2 q ∧ resp.category = aqi_category q ∧
      resp.advice = advice_for q) ∧
    aqi_category (round2 (12501/250 : ℚ)) ≠ aqi_category (12501/250 : ℚ) := by
  constructor
  · unfold predict at h
    split at h
    · cases h
    · split at h
      · cases h
      · split at h
        · cases h
        · split at h
          · cases h
          · split at h
            · cases h
            · cases h
              exact ⟨_, rfl, rfl, rfl⟩
  · have h1 : ((12501:ℚ)/250) * 100 = 25002/5 := by norm_num
    have hf : (⌊(25002:ℚ)/5⌋ : ℤ) = 5000 := by
      rw [Int.floor_eq_iff]
      constructor
      · norm_num
      · norm_num
    have h50 : round2 ((12501:ℚ)/250) = 50 := by
      rw [round2, h1]
      unfold roundHalfEven
      rw [hf]
      norm_num
    have hG : aqi_category ((50:ℚ)) = "Good" := by
      unfold aqi_category
      rw [if_pos (by norm_num : ((50:ℚ)) ≤ 50)]
    have hM : aqi_category ((12501:ℚ)/250) = "Moderate" := by
      unfold aqi_category
      rw [if_neg (by norm_num : ¬ ((12501:ℚ)/250 ≤ 50)),
        if_pos (by norm_num : ((12501:ℚ)/250 ≤ 100))]
    rw [h50, hG, hM]
    decide

/-- C10 witness: a concrete successful prediction, whose response is
built from the unrounded model output 55: category and advice from
the raw 55, predicted_aqi from its rounding. -/
theorem predict_category_unrounded_witness :
    predict sampleDf (fun _ => 55) [] sampleReq =
      .ok ⟨"Colombo City", round2 55, aqi_category 55, advice_for 55⟩ ∧
    (∃ q, round2 (55:ℚ) = round2 q ∧ aqi_category (55:ℚ) = aqi_category q ∧
      advice_for (55:ℚ) = advice_for q) ∧
    aqi_category (55:ℚ) = "Moderate" := by
  have hp : predict sampleDf (fun _ => 55) [] sampleReq =
      .ok ⟨"Colombo City", round2 55, aqi_category 55, advice_for 55⟩ := rfl
  exact ⟨hp,
    (predict_category_unrounded sampleDf (fun _ => 55) [] sampleReq _ hp).1,
    by decide⟩

end AQI
